import Mathlib

/-!
Shallow embedding of the Lab_HPC Monte-Carlo replication engine.

Source files embedded here:
- `SimModel/SimClasses.py` : `OneSim`, `ParallelMultiSim`, `simulate_this_model`
- `SimModel/RunSimSequential.py` : the sequential driver loop
- `SimModel/SimClasses2.py` (package `PyUsingSimPy`) : the second `OneSim`
  variant (named `OneSim2` here to avoid a clash) and `MultiSim`

The random-variate generators (`SimPy.RandomVariantGenerators`) are an
external, opaque seeded stochastic source: each generator call is modelled as
reading one value of an arbitrary deterministic stream at the source's current
(seed, position) and advancing the position by one.  All theorems quantify
over the streams, so nothing depends on the concrete variates.  CSV writing
(`SimPy.InOutFunctions.write_csv`) is modelled as the record the sink would
receive (directory, file name, rows).
-/

namespace LabHPC

/-- A variate stream: the value an opaque sampler produces for a source with a
given seed at a given position of its internal state. -/
def VStream : Type := Nat → Nat → ℚ

/-- State of one seeded pseudo-random source (`RVGs.RNG(seed=...)`): its seed
and its current stream position.  Construction sets the position to 0. -/
structure RNG where
  seed : Nat
  pos : Nat
deriving DecidableEq

/-- `RVGs.RNG(seed=seed)`: deterministic construction from the seed. -/
def RNG.new (seed : Nat) : RNG :=
  { seed := seed, pos := 0 }

/-- `rng.random_sample()`: draw one uniform variate (value of stream `u` at
the current state) and advance the source. -/
def RNG.random_sample (u : VStream) (r : RNG) : ℚ × RNG :=
  (u r.seed r.pos, { seed := r.seed, pos := r.pos + 1 })

/-- Parameters of `RVGs.Beta(a=1, b=2)`. -/
structure Beta where
  a : ℚ
  b : ℚ
deriving DecidableEq

/-- `beta.sample(rng=rng)`: draw one Beta variate (value of stream `bs` at the
source's current state) and advance the same source. -/
def Beta.sample (bs : VStream) (_beta : Beta) (r : RNG) : ℚ × RNG :=
  (bs r.seed r.pos, { seed := r.seed, pos := r.pos + 1 })

/-- `SimModel/SimClasses.py` `OneSim`: one replication, owning its own seeded
source, a Beta(1,2) sampler, a running sum and its seed. -/
structure OneSim where
  rng : RNG
  beta : Beta
  sum : ℚ
  seed : Nat
deriving DecidableEq

/-- `OneSim.__init__(seed)`: fresh source seeded from `seed`, Beta(1,2)
sampler, `sum = 0`, the seed stored. -/
def OneSim.init (seed : Nat) : OneSim :=
  { rng := RNG.new seed, beta := { a := 1, b := 2 }, sum := 0, seed := seed }

/-- One iteration of the accumulation loop in `OneSim.simulate`:
`self.sum += self.rng.random_sample() + self.beta.sample(rng=self.rng)`.
The uniform draw advances the source first; the Beta draw then samples from
the already-advanced source. -/
def OneSim.step (u bs : VStream) (m : OneSim) : OneSim :=
  let p1 := m.rng.random_sample u
  let p2 := m.beta.sample bs p1.2
  { m with rng := p2.2, sum := m.sum + (p1.1 + p2.1) }

/-- `OneSim.simulate(n_steps)` (state effect): set `self.sum = 0`, then run
the loop body `n_steps` times. -/
def OneSim.simulate (u bs : VStream) (m : OneSim) (n_steps : Nat) : OneSim :=
  (OneSim.step u bs)^[n_steps] { m with sum := 0 }

/-- `OneSim.simulate(n_steps)` together with the value the method returns to
its caller: the body has no `return` statement, so Python returns `None`,
modelled as `none`. -/
def OneSim.simulateRun (u bs : VStream) (m : OneSim) (n_steps : Nat) :
    OneSim × Option ℚ :=
  (m.simulate u bs n_steps, none)

/-- `OneSim.simulate` called with an arbitrary Python integer: `range(n)` is
empty for `n ≤ 0`, so only `max n 0` iterations run (`Int.toNat`). -/
def OneSim.simulateI (u bs : VStream) (m : OneSim) (n_steps : Int) : OneSim :=
  m.simulate u bs n_steps.toNat

/-- The record `IO.write_csv(rows=..., file_name=..., directory=...)`
receives: the sink is opaque, so the written file is modelled by its data. -/
structure CsvFile where
  directory : String
  file_name : String
  rows : List (List ℚ)
deriving DecidableEq

/-- `OneSim.export_results(directory)`: one row `[seed, sum]`, file name
`'Seed ' + str(seed) + '.csv'`, written into `directory`. -/
def OneSim.export_results (m : OneSim) (directory : String) : CsvFile :=
  { directory := directory
    file_name := "Seed " ++ toString m.seed ++ ".csv"
    rows := [[(m.seed : ℚ), m.sum]] }

/-- `SimModel/SimClasses.py` `simulate_this_model(model, n_steps)`: the
parallel worker function.  It simulates the model, exports its results into
the hard-coded directory `ResultsParallel`, and returns the model.  The pair
holds the returned model and the file the export writes. -/
def simulate_this_model (u bs : VStream) (model : OneSim) (n_steps : Nat) :
    OneSim × CsvFile :=
  let model' := model.simulate u bs n_steps
  (model', model'.export_results "ResultsParallel")

/-- `SimModel/RunSimSequential.py` driver loop, generalized over the
hard-coded constants (`N_RUNS`, `N_STEPS`):
`for seed in range(N): model = OneSim(seed); model.simulate(n);
model.export_results('ResultsSequential')`.  Each list entry is the model
after its run together with the file its export writes. -/
def sequentialRun (u bs : VStream) (n_runs n_steps : Nat) :
    List (OneSim × CsvFile) :=
  (List.range n_runs).map (fun seed =>
    let model := OneSim.init seed
    let model' := model.simulate u bs n_steps
    (model', model'.export_results "ResultsSequential"))

/-- `ParallelMultiSim`: the ordered collection of models. -/
structure ParallelMultiSim where
  models : List OneSim
deriving DecidableEq

/-- `ParallelMultiSim.__init__(num_simulations)`: one `OneSim` per seed in
`range(num_simulations)`, appended in seed order. -/
def ParallelMultiSim.init (num_simulations : Nat) : ParallelMultiSim :=
  { models := (List.range num_simulations).map (fun seed => OneSim.init seed) }

/-- `ParallelMultiSim.__init__` with an arbitrary Python integer:
`range(n)` is empty for `n ≤ 0`, so a non-positive count silently yields an
empty model list. -/
def ParallelMultiSim.initI (num_simulations : Int) : ParallelMultiSim :=
  ParallelMultiSim.init num_simulations.toNat

/-- One pool worker completing job `i`: it applies `f` to argument `i` and the
pool stores the result in slot `i` (`multiprocessing.Pool.starmap` keys
results by the position of the argument, never by completion order). -/
def pool_apply (f : α → β) (args : List α) (slots : List (Option β))
    (i : Nat) : List (Option β) :=
  match args[i]? with
  | some a => slots.set i (some (f a))
  | none => slots

/-- `Pool.starmap(f, args)` under an arbitrary completion schedule `sched`
(the order in which the pool's workers finish the jobs): starting from all
slots empty, each finished job writes its result into the slot of its own
argument position. -/
def poolRun (f : α → β) (args : List α) (sched : List Nat) :
    List (Option β) :=
  sched.foldl (pool_apply f args) (List.replicate args.length none)

/-- `ParallelMultiSim.simulate(n_steps)`: build
`args = [(model, n_steps) for model in self.models]` and run
`pool.starmap(simulate_this_model, args)` under completion schedule `sched`.
Each slot holds the worker's result for the model at that position. -/
def ParallelMultiSim.simulate (u bs : VStream) (P : ParallelMultiSim)
    (n_steps : Nat) (sched : List Nat) : List (Option (OneSim × CsvFile)) :=
  poolRun (fun p => simulate_this_model u bs p.1 p.2)
    (P.models.map (fun model => (model, n_steps))) sched

/-- `PyUsingSimPy/SimClasses2.py` `OneSim` (called `OneSim2` here): like the
`SimModel` variant but it also records each run's final sum in `obs`, and its
`simulate` does NOT reset `sum`. -/
structure OneSim2 where
  rng : RNG
  beta : Beta
  sum : ℚ
  obs : List ℚ
  num : Nat
deriving DecidableEq

/-- `SimClasses2.OneSim.__init__(seed)`. -/
def OneSim2.init (seed : Nat) : OneSim2 :=
  { rng := RNG.new seed, beta := { a := 1, b := 2 }, sum := 0, obs := []
    num := seed }

/-- One iteration of the loop in `SimClasses2.OneSim.simulate` (identical
body to the `SimModel` variant). -/
def OneSim2.step (u bs : VStream) (m : OneSim2) : OneSim2 :=
  let p1 := m.rng.random_sample u
  let p2 := m.beta.sample bs p1.2
  { m with rng := p2.2, sum := m.sum + (p1.1 + p2.1) }

/-- `SimClasses2.OneSim.simulate(n_steps)`: runs the loop `n_steps` times
WITHOUT resetting `sum`, then appends the final sum to `obs`. -/
def OneSim2.simulate (u bs : VStream) (m : OneSim2) (n_steps : Nat) :
    OneSim2 :=
  let m' := (OneSim2.step u bs)^[n_steps] m
  { m' with obs := m'.obs ++ [m'.sum] }

/-- The record `SimClasses2.OneSim.export_results` hands the sink: each
element of `rows` is `[self.obs]` (a one-element row whose entry is the whole
observation list), so rows are lists of lists of rationals. -/
structure CsvFile2 where
  directory : String
  file_name : String
  rows : List (List (List ℚ))
deriving DecidableEq

/-- `SimClasses2.OneSim.export_results()`: `for obs in self.obs:
rows.append([self.obs])`; file name `str(self.num) + '.csv'`; directory
hard-coded to `'Results'`. -/
def OneSim2.export_results (m : OneSim2) : CsvFile2 :=
  { directory := "Results"
    file_name := toString m.num ++ ".csv"
    rows := m.obs.map (fun _ => [m.obs]) }

/-- `summarize`'s error for an empty input. -/
inductive EmptyInputError where
  | emptyInput
deriving DecidableEq

/-- The summary `summarize` returns. -/
structure Summary where
  mean : ℚ
  count : Nat
deriving DecidableEq

/-- Modelled from the spec: `SimPy.StatisticalClasses.SummaryStat` (the
opaque reducer `summarize`) is not under `src/`; per the spec it returns the
mean and count of the outcomes for `N ≥ 1` and raises `EmptyInputError` for
an empty input. -/
def summarize (outcomes : List ℚ) : Except EmptyInputError Summary :=
  match outcomes with
  | [] => .error .emptyInput
  | _ => .ok { mean := outcomes.sum / (outcomes.length : ℚ)
               count := outcomes.length }

/-- `SimClasses2.MultiSim`: accumulated per-replication outcomes. -/
structure MultiSim where
  obs : List ℚ
deriving DecidableEq

/-- `MultiSim.__init__()`. -/
def MultiSim.init : MultiSim :=
  { obs := [] }

/-- `MultiSim.simulate(n_steps, n_iterations)`: for each `i` in
`range(n_iterations)`, run a fresh `OneSim(seed=i)` and append its final sum
to `obs` in seed order; then summarize `obs` (the summary the driver
prints). -/
def MultiSim.simulate (u bs : VStream) (M : MultiSim)
    (n_steps n_iterations : Nat) : MultiSim × Except EmptyInputError Summary :=
  let obs' := M.obs ++ (List.range n_iterations).map
    (fun i => ((OneSim2.init i).simulate u bs n_steps).sum)
  ({ obs := obs' }, summarize obs')

/-- The sum a fresh replication with seed `s` accumulates over `n` steps:
iteration `i` draws the uniform variate at position `2*i` and the Beta
variate at position `2*i + 1`.  Used as the specification value the embedded
code is compared against. -/
def freshSum (u bs : VStream) (s n : Nat) : ℚ :=
  ∑ i ∈ Finset.range n, (u s (2 * i) + bs s (2 * i + 1))

/-- Concrete uniform-stream instance used in witnesses: position value. -/
def u0 : VStream := fun _ i => (i : ℚ)

/-- Concrete Beta-stream instance used in witnesses: position value. -/
def b0 : VStream := fun _ i => (i : ℚ)

/-! ### Helper lemmas: the accumulation loop in closed form -/

theorem OneSim.step_eq (u bs : VStream) (m : OneSim) :
    m.step u bs =
      { m with
        rng := { seed := m.rng.seed, pos := m.rng.pos + 2 }
        sum := m.sum +
          (u m.rng.seed m.rng.pos + bs m.rng.seed (m.rng.pos + 1)) } :=
  rfl

theorem OneSim.step_iterate (u bs : VStream) (m : OneSim) (n : Nat) :
    (OneSim.step u bs)^[n] m =
      { m with
        rng := { seed := m.rng.seed, pos := m.rng.pos + 2 * n }
        sum := m.sum + ∑ i ∈ Finset.range n,
          (u m.rng.seed (m.rng.pos + 2 * i) +
            bs m.rng.seed (m.rng.pos + 2 * i + 1)) } := by
  induction n with
  | zero =>
    cases m with
    | mk rng beta sum seed => cases rng; simp
  | succ n ih =>
    rw [Function.iterate_succ_apply', ih, OneSim.step_eq]
    simp only [Finset.sum_range_succ, OneSim.mk.injEq, RNG.mk.injEq, true_and,
      and_true]
    exact ⟨by ring, by ring⟩

theorem OneSim.simulate_spec (u bs : VStream) (m : OneSim) (n : Nat) :
    m.simulate u bs n =
      { m with
        rng := { seed := m.rng.seed, pos := m.rng.pos + 2 * n }
        sum := ∑ i ∈ Finset.range n,
          (u m.rng.seed (m.rng.pos + 2 * i) +
            bs m.rng.seed (m.rng.pos + 2 * i + 1)) } := by
  unfold OneSim.simulate
  rw [OneSim.step_iterate]
  simp

theorem OneSim.simulate_init (u bs : VStream) (s n : Nat) :
    (OneSim.init s).simulate u bs n =
      { rng := { seed := s, pos := 2 * n }, beta := { a := 1, b := 2 }
        sum := freshSum u bs s n, seed := s } := by
  rw [OneSim.simulate_spec]
  simp [OneSim.init, RNG.new, freshSum]

theorem OneSim2.step2_eq (u bs : VStream) (m : OneSim2) :
    m.step u bs =
      { m with
        rng := { seed := m.rng.seed, pos := m.rng.pos + 2 }
        sum := m.sum +
          (u m.rng.seed m.rng.pos + bs m.rng.seed (m.rng.pos + 1)) } :=
  rfl

theorem OneSim2.step2_iterate (u bs : VStream) (m : OneSim2) (n : Nat) :
    (OneSim2.step u bs)^[n] m =
      { m with
        rng := { seed := m.rng.seed, pos := m.rng.pos + 2 * n }
        sum := m.sum + ∑ i ∈ Finset.range n,
          (u m.rng.seed (m.rng.pos + 2 * i) +
            bs m.rng.seed (m.rng.pos + 2 * i + 1)) } := by
  induction n with
  | zero =>
    cases m with
    | mk rng beta sum obs num => cases rng; simp
  | succ n ih =>
    rw [Function.iterate_succ_apply', ih, OneSim2.step2_eq]
    simp only [Finset.sum_range_succ, OneSim2.mk.injEq, RNG.mk.injEq, true_and,
      and_true]
    exact ⟨by ring, by ring⟩

theorem OneSim2.simulate2_spec (u bs : VStream) (m : OneSim2) (n : Nat) :
    m.simulate u bs n =
      { m with
        rng := { seed := m.rng.seed, pos := m.rng.pos + 2 * n }
        sum := m.sum + ∑ i ∈ Finset.range n,
          (u m.rng.seed (m.rng.pos + 2 * i) +
            bs m.rng.seed (m.rng.pos + 2 * i + 1))
        obs := m.obs ++ [m.sum + ∑ i ∈ Finset.range n,
          (u m.rng.seed (m.rng.pos + 2 * i) +
            bs m.rng.seed (m.rng.pos + 2 * i + 1))] } := by
  unfold OneSim2.simulate
  rw [OneSim2.step2_iterate]

/-! ### Helper lemmas: the pool writes each result into its argument's slot -/

theorem pool_apply_length (f : α → β) (args : List α)
    (slots : List (Option β)) (i : Nat) :
    (pool_apply f args slots i).length = slots.length := by
  unfold pool_apply
  cases args[i]? <;> simp

theorem pool_foldl_length (f : α → β) (args : List α) (sched : List Nat)
    (slots : List (Option β)) :
    (sched.foldl (pool_apply f args) slots).length = slots.length := by
  induction sched generalizing slots with
  | nil => rfl
  | cons i rest ih => rw [List.foldl_cons, ih, pool_apply_length]

theorem pool_foldl_not_mem (f : α → β) (args : List α) (sched : List Nat)
    (slots : List (Option β)) (k : Nat) (hk : k ∉ sched) :
    (sched.foldl (pool_apply f args) slots)[k]? = slots[k]? := by
  induction sched generalizing slots with
  | nil => rfl
  | cons i rest ih =>
    simp only [List.mem_cons, not_or] at hk
    rw [List.foldl_cons, ih _ hk.2]
    unfold pool_apply
    cases args[i]? with
    | none => rfl
    | some a => exact List.getElem?_set_ne (fun h => hk.1 h.symm)

theorem pool_foldl_mem (f : α → β) (args : List α) (sched : List Nat)
    (slots : List (Option β)) (k : Nat) (a : α)
    (hlen : slots.length = args.length) (hmem : k ∈ sched)
    (ha : args[k]? = some a) :
    (sched.foldl (pool_apply f args) slots)[k]? = some (some (f a)) := by
  induction sched generalizing slots with
  | nil => cases hmem
  | cons i rest ih =>
    rw [List.foldl_cons]
    by_cases hr : k ∈ rest
    · exact ih _ (by rw [pool_apply_length, hlen]) hr
    · have hik : i = k := by
        rcases List.mem_cons.mp hmem with h | h
        · exact h.symm
        · exact absurd h hr
      subst hik
      rw [pool_foldl_not_mem f args rest _ i hr]
      unfold pool_apply
      rw [ha]
      have hklt : i < slots.length := by
        rw [hlen]
        exact (List.getElem?_eq_some.mp ha).1
      exact List.getElem?_set_eq_of_lt _ hklt

theorem poolRun_eq_map (f : α → β) (args : List α) (sched : List Nat)
    (hs : sched.Perm (List.range args.length)) :
    poolRun f args sched = args.map (fun a => some (f a)) := by
  apply List.ext_getElem?
  intro k
  by_cases hk : k < args.length
  · have hmem : k ∈ sched := hs.mem_iff.mpr (List.mem_range.mpr hk)
    have ha : args[k]? = some args[k] := List.getElem?_eq_getElem hk
    rw [poolRun, pool_foldl_mem f args sched _ k args[k] (by simp) hmem ha,
      List.getElem?_map, ha]
    rfl
  · have h1 : (poolRun f args sched).length ≤ k := by
      rw [poolRun, pool_foldl_length]
      simpa using Nat.le_of_not_lt hk
    have h2 : (args.map (fun a => some (f a))).length ≤ k := by
      simpa using Nat.le_of_not_lt hk
    rw [List.getElem?_eq_none h1, List.getElem?_eq_none h2]

theorem OneSim.seed_simulate (u bs : VStream) (m : OneSim) (n : Nat) :
    (m.simulate u bs n).seed = m.seed := by
  rw [OneSim.simulate_spec]

/-! ### Claims -/

/-- C1: for every replication count `N` and step count `n`, running the
replications with seeds `0..N-1` in parallel (`ParallelMultiSim.simulate`,
under any completion schedule of the pool) produces the same outcomes, matched
by seed, as running one `OneSim` per seed sequentially in seed order (the
`RunSimSequential` driver loop): each replication's result depends only on its
own seed and `n`. -/
theorem parallel_run_matches_sequential_run (u bs : VStream) (N n : Nat)
    (sched : List Nat) (hs : sched.Perm (List.range N)) :
    ((ParallelMultiSim.init N).simulate u bs n sched).map
        (Option.map (fun r => (r.1.seed, r.1.sum)))
      = (sequentialRun u bs N n).map (fun r => some (r.1.seed, r.1.sum)) := by
  have hargs :
      ((ParallelMultiSim.init N).models.map (fun model => (model, n))).length
        = N := by
    simp [ParallelMultiSim.init]
  unfold ParallelMultiSim.simulate
  rw [poolRun_eq_map _ _ sched (by rw [hargs]; exact hs)]
  simp only [ParallelMultiSim.init, sequentialRun, List.map_map]
  rfl

/-- C1 witness: the theorem instantiated at `N = 3`, `n = 2` and the
out-of-order completion schedule `[2, 0, 1]`. -/
theorem parallel_run_matches_sequential_run_witness :
    ((ParallelMultiSim.init 3).simulate u0 b0 2 [2, 0, 1]).map
        (Option.map (fun r => (r.1.seed, r.1.sum)))
      = (sequentialRun u0 b0 3 2).map (fun r => some (r.1.seed, r.1.sum)) :=
  parallel_run_matches_sequential_run u0 b0 3 2 [2, 0, 1] (by decide)

/-- C2: after a parallel run completes, for every `k < N` the `k`-th slot of
the pool's result list holds the worker result for the replication with seed
`k` (results are stored at the position of the replication's argument, never
at the completion position, for every completion schedule), the model stored
there carries seed `k`, and its exported file is named from seed `k`. -/
theorem parallel_outcomes_indexed_by_seed (u bs : VStream) (N n k : Nat)
    (sched : List Nat) (hs : sched.Perm (List.range N)) (hk : k < N) :
    ((ParallelMultiSim.init N).simulate u bs n sched)[k]?
        = some (some (simulate_this_model u bs (OneSim.init k) n))
      ∧ (simulate_this_model u bs (OneSim.init k) n).1.seed = k
      ∧ (simulate_this_model u bs (OneSim.init k) n).2.file_name
        = "Seed " ++ toString k ++ ".csv" := by
  refine ⟨?_, ?_, ?_⟩
  · have hargs :
        ((ParallelMultiSim.init N).models.map (fun model => (model, n))).length
          = N := by
      simp [ParallelMultiSim.init]
    unfold ParallelMultiSim.simulate
    rw [poolRun_eq_map _ _ sched (by rw [hargs]; exact hs)]
    simp [ParallelMultiSim.init, List.map_map, List.getElem?_map,
      List.getElem?_range hk]
  · simp [simulate_this_model, OneSim.seed_simulate, OneSim.init]
  · simp [simulate_this_model, OneSim.export_results, OneSim.seed_simulate,
      OneSim.init]

/-- C2 witness: the theorem instantiated at `N = 3`, `n = 1`, `k = 2` and the
out-of-order completion schedule `[1, 2, 0]`. -/
theorem parallel_outcomes_indexed_by_seed_witness :
    ((ParallelMultiSim.init 3).simulate u0 b0 1 [1, 2, 0])[2]?
        = some (some (simulate_this_model u0 b0 (OneSim.init 2) 1))
      ∧ (simulate_this_model u0 b0 (OneSim.init 2) 1).1.seed = 2
      ∧ (simulate_this_model u0 b0 (OneSim.init 2) 1).2.file_name
        = "Seed " ++ toString 2 ++ ".csv" :=
  parallel_outcomes_indexed_by_seed u0 b0 3 1 2 [1, 2, 0] (by decide)
    (by decide)

/-- C3: for any seed `s` and step count `n`, two independently constructed
fresh instances `OneSim(seed=s)` accumulate identical sums when simulated for
`n` steps, and that sum is the closed-form function `freshSum` of the seed and
the step count alone — the source is deterministically seeded from `s` at
construction. -/
theorem fresh_runs_are_deterministic (u bs : VStream) (s n : Nat)
    (m1 m2 : OneSim) (h1 : m1 = OneSim.init s) (h2 : m2 = OneSim.init s) :
    (m1.simulate u bs n).sum = (m2.simulate u bs n).sum
      ∧ (m1.simulate u bs n).sum = freshSum u bs s n := by
  subst h1
  subst h2
  exact ⟨rfl, by rw [OneSim.simulate_init]⟩

/-- C3 witness: the theorem instantiated at seed 2 and 3 steps. -/
theorem fresh_runs_are_deterministic_witness :
    ((OneSim.init 2).simulate u0 b0 3).sum
        = ((OneSim.init 2).simulate u0 b0 3).sum
      ∧ ((OneSim.init 2).simulate u0 b0 3).sum = freshSum u0 b0 2 3 :=
  fresh_runs_are_deterministic u0 b0 2 3 (OneSim.init 2) (OneSim.init 2) rfl
    rfl

/-- C4 counterexample: running `simulate` twice in succession with the same
`n` does NOT yield the same final accumulated value as running it once.  With
the concrete streams `u0`/`b0` and `n = 1`, one run from seed 0 accumulates
`0 + 1 = 1`, while the second of two successive runs accumulates `2 + 3 = 5`:
the sum is reset to 0 but the source's position keeps advancing. -/
theorem second_run_differs_from_first_run :
    ((((OneSim.init 0).simulate u0 b0 1).simulate u0 b0 1).sum)
      ≠ ((OneSim.init 0).simulate u0 b0 1).sum := by
  norm_num [OneSim.simulate_spec, OneSim.init, RNG.new, u0, b0,
    Finset.sum_range_one]

/-- C4 (amended): `SimModel`'s `OneSim.simulate` resets `sum` to 0 before
accumulating, so the result of a run is independent of the previously
accumulated value — running twice never double-accumulates (though the second
run's value differs from the first's because the source advances).  The
`SimClasses2` variant does not reset: its previously accumulated value
survives a run. -/
theorem simulate_resets_accumulated_value (u bs : VStream) :
    (∀ (m : OneSim) (n : Nat) (c : ℚ),
        OneSim.simulate u bs { m with sum := c } n = m.simulate u bs n)
      ∧ ∀ (m2 : OneSim2) (c : ℚ),
          (OneSim2.simulate u bs { m2 with sum := c } 0).sum = c := by
  refine ⟨fun m n c => rfl, fun m2 c => ?_⟩
  rw [OneSim2.simulate2_spec]
  simp

/-- C5: a step count of 0 is accepted and yields outcome 0: a freshly
constructed replication simulated for 0 steps leaves its accumulated sum at 0,
in both the `SimModel` and the `SimClasses2` variant. -/
theorem zero_step_count_yields_zero_sum (u bs : VStream) (s : Nat) :
    ((OneSim.init s).simulate u bs 0).sum = 0
      ∧ ((OneSim2.init s).simulate u bs 0).sum = 0 :=
  ⟨rfl, rfl⟩

/-- C6 counterexample: `OneSim.simulate` does NOT return the final accumulated
value to its caller: the method body has no return statement, so it returns
`None`, which differs from `some` of the final sum at the concrete input
(seed 0, one step, streams `u0`/`b0`). -/
theorem simulate_returns_none_not_the_sum :
    ((OneSim.init 0).simulateRun u0 b0 1).2
      ≠ some ((OneSim.init 0).simulateRun u0 b0 1).1.sum := by
  simp [OneSim.simulateRun]

/-- C6 (amended): for every step count `n`, `simulate` executes exactly `n`
iterations — the source advances by exactly two draws per iteration, one
uniform and one Beta variate, both added to the accumulated sum, which equals
the closed-form `freshSum` — and the final value is left in the instance's
`sum` field; the method itself returns `None` (callers read the field). -/
theorem simulate_draw_count_and_sum (u bs : VStream) (s n : Nat) :
    ((OneSim.init s).simulate u bs n).rng.pos = 2 * n
      ∧ ((OneSim.init s).simulate u bs n).sum = freshSum u bs s n
      ∧ (OneSim.init s).simulateRun u bs n
        = ((OneSim.init s).simulate u bs n, none) := by
  refine ⟨?_, ?_, rfl⟩ <;> rw [OneSim.simulate_init]

/-- C7 counterexample: supplying an invalid configuration raises nothing and
IS silently clamped: constructing `ParallelMultiSim` with `N = -1` succeeds
and yields the empty set of replications, and a negative step count `-1`
performs zero iterations, leaving a fresh model unchanged. -/
theorem invalid_config_is_silently_clamped :
    ParallelMultiSim.initI (-1) = { models := [] }
      ∧ (OneSim.init 5).simulateI u0 b0 (-1) = OneSim.init 5 :=
  ⟨rfl, rfl⟩

/-- C7 (amended): the code performs no validation: a non-positive replication
count silently yields an empty replication set at construction, and a
non-positive step count silently performs zero iterations (`range(n)` is
empty); no `ConfigurationError` is raised anywhere. -/
theorem nonpositive_config_clamped_without_error (N n : Int)
    (hN : N ≤ 0) (hn : n ≤ 0) :
    ParallelMultiSim.initI N = { models := [] }
      ∧ ∀ (u bs : VStream) (m : OneSim),
          m.simulateI u bs n = m.simulate u bs 0 := by
  constructor
  · unfold ParallelMultiSim.initI ParallelMultiSim.init
    rw [Int.toNat_of_nonpos hN]
    rfl
  · intro u bs m
    unfold OneSim.simulateI
    rw [Int.toNat_of_nonpos hn]

/-- C7 witness: the amended theorem instantiated at `N = -3`, `n = -2`. -/
theorem nonpositive_config_clamped_without_error_witness :
    ParallelMultiSim.initI (-3) = { models := [] }
      ∧ ∀ (u bs : VStream) (m : OneSim),
          m.simulateI u bs (-2) = m.simulate u bs 0 :=
  nonpositive_config_clamped_without_error (-3) (-2) (by decide) (by decide)

/-- C8 counterexample: the `SimClasses2` variant's export does not follow the
claimed format: after one run of the replication with seed 0 (streams
`u0`/`b0`), the file is named `0.csv` — not `Seed 0.csv` — its single row is
`[[1]]` (the whole observation list, not `[seed, accumulated_value]`), and it
is written to the hard-coded directory `Results`, not a given directory. -/
theorem variant_export_breaks_claimed_format :
    (((OneSim2.init 0).simulate u0 b0 1).export_results).file_name = "0.csv"
      ∧ (((OneSim2.init 0).simulate u0 b0 1).export_results).file_name
        ≠ "Seed 0.csv"
      ∧ (((OneSim2.init 0).simulate u0 b0 1).export_results).rows
        = [[[(1 : ℚ)]]]
      ∧ (((OneSim2.init 0).simulate u0 b0 1).export_results).directory
        = "Results" := by
  refine ⟨rfl, by decide, ?_, rfl⟩
  norm_num [OneSim2.simulate2_spec, OneSim2.init, OneSim2.export_results,
    RNG.new, u0, b0, Finset.sum_range_one]

/-- C8 (amended): `SimModel`'s `OneSim.export_results` writes exactly one row
`[seed, accumulated_value]` to a file named `Seed <seed>.csv` inside the
given directory; the `SimClasses2` variant instead writes one row per
recorded observation (each row holding the whole observation list) to
`<seed>.csv` inside the hard-coded directory `Results`. -/
theorem export_results_format (m : OneSim) (directory : String)
    (m2 : OneSim2) :
    (m.export_results directory).directory = directory
      ∧ (m.export_results directory).file_name
        = "Seed " ++ toString m.seed ++ ".csv"
      ∧ (m.export_results directory).rows = [[(m.seed : ℚ), m.sum]]
      ∧ (m.export_results directory).rows.length = 1
      ∧ m2.export_results.directory = "Results"
      ∧ m2.export_results.file_name = toString m2.num ++ ".csv"
      ∧ m2.export_results.rows.length = m2.obs.length := by
  refine ⟨rfl, rfl, rfl, rfl, rfl, rfl, ?_⟩
  simp [OneSim2.export_results]

/-- C9: `summarize` is defined for one or more outcomes, and calling it on an
empty outcome list — as `MultiSim.simulate` does when `n_iterations = 0` —
yields the input-validation error `EmptyInputError` rather than a value. -/
theorem summarize_empty_input_error (u bs : VStream) (n : Nat) :
    summarize ([] : List ℚ) = .error .emptyInput
      ∧ (MultiSim.init.simulate u bs n 0).2 = .error .emptyInput
      ∧ ∀ (x : ℚ) (xs : List ℚ), (summarize (x :: xs)).isOk = true :=
  ⟨rfl, rfl, fun _ _ => rfl⟩

/-- C10: the parallel worker `simulate_this_model` always both simulates the
model and exports its results, and the export always goes to the hard-coded
directory `ResultsParallel`: the function takes no directory argument, so the
destination is not caller-selectable and the export cannot be skipped. -/
theorem worker_always_simulates_and_exports (u bs : VStream) (m : OneSim)
    (n : Nat) :
    simulate_this_model u bs m n
        = (m.simulate u bs n,
          (m.simulate u bs n).export_results "ResultsParallel")
      ∧ (simulate_this_model u bs m n).2.directory = "ResultsParallel" :=
  ⟨rfl, rfl⟩

end LabHPC
